import Mathlib

/-!
Verification development for the byte-oriented key-value access layer
(cn-infra redis keyval) and its example driver
(`db/keyval/redis/examples/simple/simple.go`).

The repository sources available here contain only the example driver; the
broker/watcher/connection core (package `db/keyval/redis`) is declared and
called by the driver but its implementation is not in the source tree, so the
core's semantics are modelled from the specification (each such definition is
marked `Modelled from the spec:`).  The driver itself (`loadConfig`, `main`,
`createConnectionRedigo`, the helper functions `put`/`get`/`listKeys`/
`listVal`/`del`/`txn`, and the command sequence of `runSimpleExmple`) is
embedded directly from the Go source.
-/

namespace RedisKV

/-- Modelled from the spec: a ChangeEvent is (ChangeType ∈ \x7bPut, Delete\x7d, Key,
Value-if-Put), produced by the Watcher, one per observed mutation. -/
inductive ChangeEvent where
  | put (key val : String)
  | del (key : String)
deriving Repr, DecidableEq

/-- The key a change event is about. -/
def ChangeEvent.key : ChangeEvent → String
  | .put k _ => k
  | .del k => k

/-- Modelled from the spec: an Entry is a (Key, Value, Revision) tuple; we also
record the absolute expiry instant derived from a `WithTTL` put (`none` for a
non-expiring write). -/
structure Entry where
  key : String
  val : String
  rev : Nat
  expiry : Option Nat
deriving Repr, DecidableEq

/-- Modelled from the spec: the state of the backing store as seen through one
Connection: the stored entries, the current time (seconds), the next revision
counter (revisions are monotonically non-decreasing), and whether the
Connection has been closed. -/
structure StoreState where
  entries : List Entry
  now : Nat
  nextRev : Nat
  closed : Bool
deriving Repr, DecidableEq

/-- Modelled from the spec: error taxonomy visible to the driver; the driver
scenario only exercises the connection-closed error. -/
inductive Err where
  | connClosed
deriving Repr, DecidableEq

/-- Modelled from the spec: a key whose TTL has elapsed is logically absent;
an entry is live when it has no expiry or its expiry instant is still in the
future. -/
def Entry.live (now : Nat) (e : Entry) : Bool :=
  match e.expiry with
  | none => true
  | some t => decide (now < t)

/-- Modelled from the spec: a prefix is a key treated as a match predicate —
any stored key whose leading bytes equal the prefix matches.  Stated over the
character sequences of the two strings. -/
def strStartsWith (s p : String) : Bool := p.data.isPrefixOf s.data

/-- Find the live entry stored under exactly key `k`, if any. -/
def StoreState.findLive (st : StoreState) (k : String) : Option Entry :=
  st.entries.find? (fun e => e.key == k && e.live st.now)

/-- Modelled from the spec: `Put(key, value, options...)`; `WithTTL(d)` makes
the value absent after `d` elapses; a Put on an existing key overwrites value,
revision and TTL atomically; on a closed connection it fails with a
connection-closed error.  Returns the new state and the one Put ChangeEvent
the mutation produces. -/
def StoreState.put (st : StoreState) (k v : String) (ttl : Option Nat) :
    Except Err (StoreState × List ChangeEvent) :=
  if st.closed then .error .connClosed
  else .ok
    ({ st with
        entries := ⟨k, v, st.nextRev, ttl.map (st.now + ·)⟩ ::
          st.entries.filter (fun e => e.key != k),
        nextRev := st.nextRev + 1 },
      [.put k v])

/-- Modelled from the spec: `GetValue(key) -> (value, found, revision, Error)`;
`found=false, err=nil` is the normal absent outcome (returned here as
`.ok none`); an expired key reports not-found; a closed connection yields the
connection-closed error. -/
def StoreState.getValue (st : StoreState) (k : String) :
    Except Err (Option (String × Nat)) :=
  if st.closed then .error .connClosed
  else .ok ((st.findLive k).map fun e => (e.val, e.rev))

/-- Modelled from the spec: `ListKeys(p)` produces the (key, revision)
pairs of all non-expired entries whose key starts with `p`. -/
def StoreState.listKeys (st : StoreState) (p : String) :
    Except Err (List (String × Nat)) :=
  if st.closed then .error .connClosed
  else .ok
    ((st.entries.filter (fun e => strStartsWith e.key p && e.live st.now)).map
      fun e => (e.key, e.rev))

/-- Modelled from the spec: `ListValues(p)` is `ListKeys` yielding full
Entry tuples. -/
def StoreState.listValues (st : StoreState) (p : String) :
    Except Err (List Entry) :=
  if st.closed then .error .connClosed
  else .ok (st.entries.filter (fun e => strStartsWith e.key p && e.live st.now))

/-- Modelled from the spec: `Delete(keyOrPrefix) -> (found, Error)` removes all
matching keys transactionally; `found` reports whether anything (live)
matched; deleting a non-existent key/prefix returns `found=false, Error=nil`.
One Delete ChangeEvent is produced per live key removed. -/
def StoreState.delete (st : StoreState) (p : String) :
    Except Err (Bool × StoreState × List ChangeEvent) :=
  if st.closed then .error .connClosed
  else
    let matched := st.entries.filter (fun e => strStartsWith e.key p && e.live st.now)
    .ok (!matched.isEmpty,
      { st with entries := st.entries.filter (fun e => !strStartsWith e.key p) },
      matched.map (fun e => .del e.key))

/-- Advance the store clock by `d` seconds (the driver's `time.Sleep`). -/
def StoreState.advance (st : StoreState) (d : Nat) : StoreState :=
  { st with now := st.now + d }

/-- Modelled from the spec: `Close()` releases the client; afterwards every
operation on derived Brokers/Watchers fails. -/
def StoreState.close (st : StoreState) : StoreState :=
  { st with closed := true }

/-- A pending transaction operation: `Put(key,value)` or `Delete(key)`. -/
inductive TxnOp where
  | put (k v : String)
  | del (k : String)
deriving Repr, DecidableEq

/-- Apply one buffered transaction operation (a transaction Put carries no
TTL; a transaction Delete targets the exact key). -/
def applyTxnOp (st : StoreState) : TxnOp → StoreState × List ChangeEvent
  | .put k v =>
    ({ st with
        entries := ⟨k, v, st.nextRev, none⟩ :: st.entries.filter (fun e => e.key != k),
        nextRev := st.nextRev + 1 },
      [.put k v])
  | .del k =>
    let matched := st.entries.filter (fun e => e.key == k && e.live st.now)
    ({ st with entries := st.entries.filter (fun e => e.key != k) },
      matched.map (fun e => .del e.key))

/-- Modelled from the spec: `Commit()` applies every buffered operation as a
single indivisible unit, in append order, with a later operation on the same
key overriding an earlier one; on a closed connection it fails.  Atomicity
holds by construction: the commit is a single state transition. -/
def StoreState.commit (st : StoreState) (ops : List TxnOp) :
    Except Err (StoreState × List ChangeEvent) :=
  if st.closed then .error .connClosed
  else .ok (ops.foldl
    (fun acc op =>
      let r := applyTxnOp acc.1 op
      (r.1, acc.2 ++ r.2))
    (st, []))

/-- Decidable equality for `Except` results, so that concrete observations can
be checked by evaluation. -/
instance {ε α : Type} [DecidableEq ε] [DecidableEq α] : DecidableEq (Except ε α) :=
  fun a b =>
    match a, b with
    | .error e, .error f =>
      if h : e = f then .isTrue (by rw [h]) else .isFalse (fun hh => by cases hh; exact h rfl)
    | .ok x, .ok y =>
      if h : x = y then .isTrue (by rw [h]) else .isFalse (fun hh => by cases hh; exact h rfl)
    | .error _, .ok _ => .isFalse (fun hh => by cases hh)
    | .ok _, .error _ => .isFalse (fun hh => by cases hh)

/-- A driver command, as issued by `runSimpleExmple` in the Go source (sleep
durations in seconds). -/
inductive Cmd where
  | put (k v : String) (ttl : Option Nat)
  | get (k : String)
  | listKeys (p : String)
  | listValues (p : String)
  | delete (p : String)
  | txnCommit (ops : List TxnOp)
  | sleep (d : Nat)
  | close
deriving Repr, DecidableEq

/-- The observation a driver command yields (what the driver's helper would
log). -/
inductive Obs where
  | putRes (r : Except Err Unit)
  | getRes (r : Except Err (Option (String × Nat)))
  | listKeysRes (r : Except Err (List (String × Nat)))
  | listValuesRes (r : Except Err (List Entry))
  | deleteRes (r : Except Err Bool)
  | txnRes (r : Except Err Unit)
  | noObs
deriving Repr, DecidableEq

/-- Execute one driver command against the store, returning the next state,
the change events the mutation produced, and the observation. -/
def step (st : StoreState) : Cmd → StoreState × List ChangeEvent × Obs
  | .sleep d => (st.advance d, [], .noObs)
  | .close => (st.close, [], .noObs)
  | .put k v ttl =>
    match st.put k v ttl with
    | .ok (st2, evs) => (st2, evs, .putRes (.ok ()))
    | .error e => (st, [], .putRes (.error e))
  | .get k => (st, [], .getRes (st.getValue k))
  | .listKeys p => (st, [], .listKeysRes (st.listKeys p))
  | .listValues p => (st, [], .listValuesRes (st.listValues p))
  | .delete p =>
    match st.delete p with
    | .ok (found, st2, evs) => (st2, evs, .deleteRes (.ok found))
    | .error e => (st, [], .deleteRes (.error e))
  | .txnCommit ops =>
    match st.commit ops with
    | .ok (st2, evs) => (st2, evs, .txnRes (.ok ()))
    | .error e => (st, [], .txnRes (.error e))

/-- Run a command sequence, accumulating the change-event trace (in delivery
order) and the list of observations, one per command. -/
def run (st : StoreState) : List Cmd → StoreState × List ChangeEvent × List Obs
  | [] => (st, [], [])
  | c :: cs =>
    let r := step st c
    let rest := run r.1 cs
    (rest.1, r.2.1 ++ rest.2.1, r.2.2 :: rest.2.2)

/-- The transaction buffered by the driver's `txn()` (simple.go lines
269-281): four chained Puts followed by a Delete of key101. -/
def txnOps : List TxnOp :=
  [.put "key101" "val 101", .put "key102" "val 102",
   .put "key103" "val 103", .put "key104" "val 104",
   .del "key101"]

/-- The command sequence of `runSimpleExmple` (simple.go lines 149-185),
after the Watch subscription on prefix "key" has been issued (line 125):
sleep 2s; three puts (key3 with a 1-second TTL); sleep 2s; the gets, lists,
prefix delete and re-reads; the transaction; close; and the final delete on
the closed connection. -/
def driverCmds : List Cmd :=
  [.sleep 2,
   .put "key1" "val 1" none,
   .put "key2" "val 2" none,
   .put "key3" "val 3" (some 1),
   .sleep 2,
   .get "key1", .get "key2", .get "key3", .get "key",
   .listKeys "key", .listValues "key",
   .delete "key",
   .get "key1", .get "key2", .listKeys "key", .listValues "key",
   .txnCommit txnOps,
   .listValues "key",
   .sleep 5,
   .close,
   .delete "key"]

/-- The initial store state: empty keyspace, clock at 0, first revision 1,
connection open. -/
def st0 : StoreState := ⟨[], 0, 1, false⟩

/-- The observations of the driver scenario, indexed by command position. -/
def scenarioObs : List Obs := (run st0 driverCmds).2.2

/-- The change events produced over the whole driver scenario, in order. -/
def scenarioEvents : List ChangeEvent := (run st0 driverCmds).2.1

/-- The events delivered to the sink subscribed with `Watch(respChan, "key")`:
the trace restricted to keys matching the watched prefix. -/
def watchedEvents : List ChangeEvent :=
  scenarioEvents.filter (fun e => strStartsWith e.key "key")

/-- The store state after the initial sleep and the three puts followed by
the second sleep (before any read). -/
def stMid : StoreState := (run st0 (driverCmds.take 5)).1

/-- The store state right before the driver's transaction commit. -/
def stPreTxn : StoreState := (run st0 (driverCmds.take 16)).1

/-- The store state right after the driver's transaction commit. -/
def stAfterTxn : StoreState := (run st0 (driverCmds.take 17)).1

/-- The store state at the end of the scenario (after `Close`). -/
def stFinal : StoreState := (run st0 driverCmds).1

end RedisKV

namespace Driver

open RedisKV

/-- A logging action performed by a driver helper function (the Go driver's
`log.Errorf`, `log.Infof`, `log.Panicf`). -/
inductive Action where
  | logError
  | logInfo
  | logPanic
deriving Repr, DecidableEq

/-- Whether a driver helper lets the run continue to the next step or
terminates the program. -/
inductive Flow where
  | cont
  | terminated
deriving Repr, DecidableEq

/-- The driver's `put` helper (simple.go lines 191-197): on a Broker error it
logs the error (the `log.Panicf` alternative is commented out in the source)
and control returns to the caller. -/
def putStep (res : Except Err Unit) : List Action × Flow :=
  match res with
  | .error _ => ([.logError], .cont)
  | .ok _ => ([], .cont)

/-- The driver's `get` helper (simple.go lines 199-213): an error is logged
via `log.Errorf`; a found value and a not-found outcome are each logged via
`log.Infof`; control always returns. -/
def getStep (res : Except Err (Option (String × Nat))) : List Action × Flow :=
  match res with
  | .error _ => ([.logError], .cont)
  | .ok (some _) => ([.logInfo], .cont)
  | .ok none => ([.logInfo], .cont)

/-- The driver's `listKeys` helper (simple.go lines 215-234): an error is
logged; otherwise one `log.Infof` per key plus the final count line. -/
def listKeysStep (res : Except Err (List (String × Nat))) : List Action × Flow :=
  match res with
  | .error _ => ([.logError], .cont)
  | .ok keys => (keys.map (fun _ => Action.logInfo) ++ [.logInfo], .cont)

/-- The driver's `listVal` helper (simple.go lines 236-255): an error is
logged; otherwise one `log.Infof` per key-value pair plus the count line. -/
def listValStep (res : Except Err (List Entry)) : List Action × Flow :=
  match res with
  | .error _ => ([.logError], .cont)
  | .ok kvs => (kvs.map (fun _ => Action.logInfo) ++ [.logInfo], .cont)

/-- The driver's `del` helper (simple.go lines 257-267): an error is logged
and the helper returns early; otherwise the found flag is logged. -/
def delStep (res : Except Err Bool) : List Action × Flow :=
  match res with
  | .error _ => ([.logError], .cont)
  | .ok _ => ([.logInfo], .cont)

/-- The driver's `txn` helper around `Commit()` (simple.go lines 277-280): a
commit error is logged via `log.Errorf`; control always returns. -/
def txnStep (res : Except Err Unit) : List Action × Flow :=
  match res with
  | .error _ => ([.logError], .cont)
  | .ok _ => ([], .cont)

/-- The three mutually exclusive topology configuration shapes
(`redis.NodeConfig`, `redis.ClusterConfig`, `redis.SentinelConfig`). -/
inductive ConfigT where
  | node
  | cluster
  | sentinel
deriving Repr, DecidableEq

/-- What `loadConfig` produces: the parsed configuration (or nil), whether the
usage message was printed, and the `useRedigo` flag set by the deferred check
on the last argument. -/
structure LoadResult where
  cfg : Option ConfigT
  printedUsage : Bool
  useRedigo : Bool
deriving Repr, DecidableEq

/-- The driver's `loadConfig` (simple.go lines 53-90) over the process
argument vector `args` (`os.Args`, index 0 the program name).  The deferred
closure sets `useRedigo` when more than three arguments were given and the
last one is "redigo".  Fewer than three arguments prints the usage message and
returns nil; otherwise the first argument selects the topology, and any other
flag falls through to the final `return nil` with no output.  (Successful YAML
parsing is assumed; a parse failure panics in the source and is out of scope
here.) -/
def loadConfig (args : List String) : LoadResult :=
  let redigo := decide (3 < args.length) && (args.getLastD "" == "redigo")
  if args.length < 3 then ⟨none, true, redigo⟩
  else if args.getD 1 "" = "-n" then ⟨some .node, false, redigo⟩
  else if args.getD 1 "" = "-c" then ⟨some .cluster, false, redigo⟩
  else if args.getD 1 "" = "-s" then ⟨some .sentinel, false, redigo⟩
  else ⟨none, false, redigo⟩

/-- Outcome of establishing a connection: a connection handle, or a Go panic. -/
inductive ConnResult where
  | conn (redigo : Bool) (cfg : ConfigT)
  | panicked
deriving Repr, DecidableEq

/-- The driver's `createConnection` (simple.go lines 92-103): accepts any of
the three configuration shapes (network failures, which also panic in the
source, are out of scope). -/
def createConnection (cfg : ConfigT) : ConnResult := .conn false cfg

/-- The driver's `createConnectionRedigo` (simple.go lines 105-116): the
unchecked type assertion `cfg.(redis.NodeConfig)` panics whenever the supplied
configuration is not a `NodeConfig`. -/
def createConnectionRedigo (cfg : ConfigT) : ConnResult :=
  match cfg with
  | .node => .conn true .node
  | _ => .panicked

/-- How a run of `main` ends, up to the point where `runSimpleExmple` would
start. -/
inductive MainOutcome where
  | usagePrinted
  | silentReturn
  | panicked
  | ranExample (redigo : Bool) (cfg : ConfigT)
deriving Repr, DecidableEq

/-- The driver's `main` (simple.go lines 31-51): load the configuration;
return immediately when it is nil; otherwise create the connection with the
redigo or go-redis path and run the example. -/
def mainGo (args : List String) : MainOutcome :=
  let r := loadConfig args
  match r.cfg with
  | none => if r.printedUsage then .usagePrinted else .silentReturn
  | some cfg =>
    match (if r.useRedigo then createConnectionRedigo cfg else createConnection cfg) with
    | .panicked => .panicked
    | .conn rg c => .ranExample rg c

end Driver

namespace RedisKV

/-- C1: in the driver scenario — Put("key1","val 1"), Put("key2","val 2"),
Put("key3","val 3") with a 1-second TTL, then a 2-second wait —
GetValue("key1") returns ("val 1", true, revision 1), GetValue("key3")
returns found=false, and ListKeys("key") yields exactly the keys "key1" and
"key2"; after Delete("key") (which reports found=true), ListKeys("key")
yields the empty sequence and GetValue("key1") returns found=false. -/
theorem end_to_end_scenario :
    scenarioObs.getD 5 .noObs = .getRes (.ok (some ("val 1", 1))) ∧
    scenarioObs.getD 7 .noObs = .getRes (.ok none) ∧
    (∃ l, scenarioObs.getD 9 .noObs = .listKeysRes (.ok l) ∧
      (l.map Prod.fst).Perm ["key1", "key2"]) ∧
    scenarioObs.getD 11 .noObs = .deleteRes (.ok true) ∧
    scenarioObs.getD 14 .noObs = .listKeysRes (.ok []) ∧
    scenarioObs.getD 12 .noObs = .getRes (.ok none) :=
  ⟨by decide, by decide, ⟨[("key2", 2), ("key1", 1)], by decide, by decide⟩,
   by decide, by decide, by decide⟩

/-- C2: the driver's transaction — Put(key101), Put(key102), Put(key103),
Put(key104), Delete(key101) — commits as one state transition applying the
buffered operations in append order, so the later Delete overrides the
earlier Put of key101: Commit succeeds, and subsequent reads see key102,
key103, key104 present and key101 absent.  No intermediate state is
observable: the commit is a single step of the store model, producing
`stAfterTxn` directly from `stPreTxn`. -/
theorem txn_atomic_last_write_wins :
    stPreTxn.commit txnOps = .ok (stAfterTxn,
      [.put "key101" "val 101", .put "key102" "val 102", .put "key103" "val 103",
       .put "key104" "val 104", .del "key101"]) ∧
    scenarioObs.getD 16 .noObs = .txnRes (.ok ()) ∧
    stAfterTxn.getValue "key101" = .ok none ∧
    stAfterTxn.getValue "key102" = .ok (some ("val 102", 5)) ∧
    stAfterTxn.getValue "key103" = .ok (some ("val 103", 6)) ∧
    stAfterTxn.getValue "key104" = .ok (some ("val 104", 7)) ∧
    stAfterTxn.listValues "key" = .ok
      [⟨"key104", "val 104", 7, none⟩, ⟨"key103", "val 103", 6, none⟩,
       ⟨"key102", "val 102", 5, none⟩] := by
  refine ⟨by decide, by decide, by decide, by decide, by decide, by decide, by decide⟩

/-- C3: every operation on a Broker derived from a closed connection —
Put, GetValue, ListKeys, ListValues, Delete, and a transaction Commit —
returns the connection-closed error; being total functions of the model they
neither block, panic, nor succeed as a no-op. -/
theorem closed_connection_fails (st : StoreState) (h : st.closed = true)
    (k v p : String) (ttl : Option Nat) (ops : List TxnOp) :
    st.put k v ttl = .error .connClosed ∧
    st.getValue k = .error .connClosed ∧
    st.listKeys p = .error .connClosed ∧
    st.listValues p = .error .connClosed ∧
    st.delete p = .error .connClosed ∧
    st.commit ops = .error .connClosed := by
  simp [StoreState.put, StoreState.getValue, StoreState.listKeys,
        StoreState.listValues, StoreState.delete, StoreState.commit, h]

/-- Witness for C3: the driver's final `del("key")` after `redisConn.Close()`
fails with the connection-closed error, as do all other operations on the
closed final state. -/
theorem closed_connection_fails_witness :
    (stFinal.put "key1" "val 1" none = .error .connClosed ∧
     stFinal.getValue "key1" = .error .connClosed ∧
     stFinal.listKeys "key" = .error .connClosed ∧
     stFinal.listValues "key" = .error .connClosed ∧
     stFinal.delete "key" = .error .connClosed ∧
     stFinal.commit txnOps = .error .connClosed) ∧
    scenarioObs.getD 20 .noObs = .deleteRes (.error .connClosed) :=
  ⟨closed_connection_fails stFinal (by decide) "key1" "val 1" "key" none txnOps, by decide⟩

/-- C4: the sink subscribed (before any mutation) with prefix "key" receives,
for key1 — which is Put and later Deleted through the Broker — exactly one
Put event carrying its value "val 1" and exactly one Delete event, with the
Put delivered before the Delete; likewise for key2. -/
theorem watcher_complete_ordered_per_key :
    watchedEvents.filter (fun e => e == .put "key1" "val 1") = [.put "key1" "val 1"] ∧
    watchedEvents.filter (fun e => e == .del "key1") = [.del "key1"] ∧
    watchedEvents.findIdx (fun e => e == .put "key1" "val 1") <
      watchedEvents.findIdx (fun e => e == .del "key1") ∧
    watchedEvents.filter (fun e => e == .put "key2" "val 2") = [.put "key2" "val 2"] ∧
    watchedEvents.filter (fun e => e == .del "key2") = [.del "key2"] ∧
    watchedEvents.findIdx (fun e => e == .put "key2" "val 2") <
      watchedEvents.findIdx (fun e => e == .del "key2") := by
  refine ⟨by decide, by decide, by decide, by decide, by decide, by decide⟩

/-- C5: on an open connection, `Delete(p)` removes every stored key whose
leading bytes equal `p`; it reports found=true exactly when at least one
non-expired key matched (found=false with no error otherwise); a subsequent
`ListKeys(p)` yields the empty sequence, and `GetValue(k)` returns found=false
for every key `k` matching the prefix. -/
theorem delete_removes_matching (st : StoreState) (p : String)
    (h : st.closed = false) :
    ∃ found st2 evs, st.delete p = .ok (found, st2, evs) ∧
      (found = true ↔ ∃ e ∈ st.entries, strStartsWith e.key p = true ∧ e.live st.now = true) ∧
      st2.listKeys p = .ok [] ∧
      (∀ k, strStartsWith k p = true → st2.getValue k = .ok none) := by
  refine ⟨!(st.entries.filter (fun e => strStartsWith e.key p && e.live st.now)).isEmpty,
          { st with entries := st.entries.filter (fun e => !strStartsWith e.key p) },
          (st.entries.filter (fun e => strStartsWith e.key p && e.live st.now)).map
            (fun e => ChangeEvent.del e.key),
          ?_, ?_, ?_, ?_⟩
  · simp [StoreState.delete, h]
  · have base : ∀ l : List Entry, (!l.isEmpty) = true ↔ l ≠ [] := by
      intro l; cases l <;> simp
    rw [base]
    constructor
    · intro hne
      obtain ⟨e, he⟩ := List.exists_mem_of_ne_nil _ hne
      obtain ⟨hmem, hq⟩ := List.mem_filter.mp he
      rw [Bool.and_eq_true] at hq
      exact ⟨e, hmem, hq.1, hq.2⟩
    · rintro ⟨e, hmem, hsw, hlive⟩
      exact List.ne_nil_of_mem (List.mem_filter.mpr ⟨hmem, by simp [hsw, hlive]⟩)
  · simp only [StoreState.listKeys, h, Bool.false_eq_true, if_false]
    refine congrArg Except.ok ?_
    rw [List.filter_filter, List.map_eq_nil_iff, List.filter_eq_nil_iff]
    intro e _
    cases hsw : strStartsWith e.key p <;> simp [hsw]
  · intro k hk
    have hfind : (st.entries.filter (fun e => !strStartsWith e.key p)).find?
        (fun e => e.key == k && e.live st.now) = none := by
      rw [List.find?_eq_none]
      intro e he hpred
      have h1 := (List.mem_filter.mp he).2
      rw [Bool.and_eq_true] at hpred
      have h2 : e.key = k := beq_iff_eq.mp hpred.1
      rw [h2, hk] at h1
      simp at h1
    simp [StoreState.getValue, StoreState.findLive, h, hfind]

/-- Witness for C5: the driver's `del("key")` on the state holding key1, key2
and the expired key3 — found=true, ListKeys("key") empty afterwards, and every
"key"-prefixed read reports absent. -/
theorem delete_removes_matching_witness :
    ∃ found st2 evs, stMid.delete "key" = .ok (found, st2, evs) ∧
      (found = true ↔ ∃ e ∈ stMid.entries,
        strStartsWith e.key "key" = true ∧ e.live stMid.now = true) ∧
      st2.listKeys "key" = .ok [] ∧
      (∀ k, strStartsWith k "key" = true → st2.getValue k = .ok none) :=
  delete_removes_matching stMid "key" (by decide)

/-- C6: absence is not an error — on an open connection, `GetValue(k)` for a
key with no live entry returns found=false together with no error, and a
GetValue error can only arise from a closed (failed) connection, never from
mere absence. -/
theorem absence_not_error (st : StoreState) (k : String) :
    (st.closed = false → st.findLive k = none → st.getValue k = .ok none) ∧
    (∀ e, st.getValue k = .error e → st.closed = true) := by
  constructor
  · intro h hn
    simp [StoreState.getValue, h, hn]
  · intro e he
    cases hc : st.closed with
    | false => simp [StoreState.getValue, hc] at he
    | true => rfl

/-- Witness for C6: the driver's read of the bare prefix "key" — never stored
as a key itself — returns found=false with no error. -/
theorem absence_not_error_witness : stMid.getValue "key" = .ok none :=
  (absence_not_error stMid "key").1 (by decide) (by decide)

end RedisKV

namespace Driver

/-- C7: driver error policy — for every Broker operation the driver issues
(put, get, listKeys, listVal, del and the transaction Commit), any returned
error is reported via `log.Errorf` and the helper returns control to the run
(never `log.Panicf`, never termination). -/
theorem driver_error_policy :
    (∀ r, (putStep r).2 = .cont ∧ Action.logPanic ∉ (putStep r).1 ∧
      (∀ e, r = .error e → Action.logError ∈ (putStep r).1)) ∧
    (∀ r, (getStep r).2 = .cont ∧ Action.logPanic ∉ (getStep r).1 ∧
      (∀ e, r = .error e → Action.logError ∈ (getStep r).1)) ∧
    (∀ r, (listKeysStep r).2 = .cont ∧ Action.logPanic ∉ (listKeysStep r).1 ∧
      (∀ e, r = .error e → Action.logError ∈ (listKeysStep r).1)) ∧
    (∀ r, (listValStep r).2 = .cont ∧ Action.logPanic ∉ (listValStep r).1 ∧
      (∀ e, r = .error e → Action.logError ∈ (listValStep r).1)) ∧
    (∀ r, (delStep r).2 = .cont ∧ Action.logPanic ∉ (delStep r).1 ∧
      (∀ e, r = .error e → Action.logError ∈ (delStep r).1)) ∧
    (∀ r, (txnStep r).2 = .cont ∧ Action.logPanic ∉ (txnStep r).1 ∧
      (∀ e, r = .error e → Action.logError ∈ (txnStep r).1)) := by
  refine ⟨?_, ?_, ?_, ?_, ?_, ?_⟩ <;> intro r
  · rcases r with e | x <;> simp [putStep]
  · rcases r with e | x
    · simp [getStep]
    · rcases x with _ | v <;> simp [getStep]
  · rcases r with e | x <;> simp [listKeysStep, List.mem_append, List.mem_map]
  · rcases r with e | x <;> simp [listValStep, List.mem_append, List.mem_map]
  · rcases r with e | x <;> simp [delStep]
  · rcases r with e | x <;> simp [txnStep]

/-- Witness for C7: a connection-closed error from Put, Delete or Commit is
logged and the run continues. -/
theorem driver_error_policy_witness :
    (putStep (.error .connClosed)).2 = Flow.cont ∧
    Action.logError ∈ (putStep (.error .connClosed)).1 ∧
    (delStep (.error .connClosed)).2 = Flow.cont ∧
    Action.logError ∈ (delStep (.error .connClosed)).1 ∧
    (txnStep (.error .connClosed)).2 = Flow.cont ∧
    Action.logError ∈ (txnStep (.error .connClosed)).1 :=
  ⟨(driver_error_policy.1 (.error .connClosed)).1,
   (driver_error_policy.1 (.error .connClosed)).2.2 .connClosed rfl,
   ((driver_error_policy.2.2.2.2.1) (.error .connClosed)).1,
   ((driver_error_policy.2.2.2.2.1) (.error .connClosed)).2.2 .connClosed rfl,
   ((driver_error_policy.2.2.2.2.2) (.error .connClosed)).1,
   ((driver_error_policy.2.2.2.2.2) (.error .connClosed)).2.2 .connClosed rfl⟩

/-- C8: topology selection — with at least three arguments, the first argument
selects exactly one of the three configuration shapes ("-n" a NodeConfig,
"-c" a ClusterConfig, "-s" a SentinelConfig); with fewer than three arguments
the usage message is printed and main returns without attempting any
connection. -/
theorem topology_selection (args : List String) :
    (3 ≤ args.length →
      ((args.getD 1 "" = "-n" → (loadConfig args).cfg = some ConfigT.node) ∧
       (args.getD 1 "" = "-c" → (loadConfig args).cfg = some ConfigT.cluster) ∧
       (args.getD 1 "" = "-s" → (loadConfig args).cfg = some ConfigT.sentinel))) ∧
    (args.length < 3 →
      (loadConfig args).printedUsage = true ∧
      (loadConfig args).cfg = none ∧
      mainGo args = .usagePrinted) := by
  constructor
  · intro hlen
    have hn3 : ¬ args.length < 3 := by omega
    refine ⟨?_, ?_, ?_⟩ <;> intro ht <;>
      simp only [List.getD_eq_getElem?_getD] at ht <;>
      simp [loadConfig, hn3, ht]
  · intro hlt
    simp [loadConfig, mainGo, hlt]

/-- Witness for C8: each flag selects its topology, and a bare invocation
prints usage and stops before a connection. -/
theorem topology_selection_witness :
    ((loadConfig ["prog", "-n", "node.yaml"]).cfg = some ConfigT.node ∧
     (loadConfig ["prog", "-c", "cluster.yaml"]).cfg = some ConfigT.cluster ∧
     (loadConfig ["prog", "-s", "sentinel.yaml"]).cfg = some ConfigT.sentinel) ∧
    ((loadConfig ["prog"]).printedUsage = true ∧
     (loadConfig ["prog"]).cfg = none ∧
     mainGo ["prog"] = MainOutcome.usagePrinted) :=
  ⟨⟨((topology_selection ["prog", "-n", "node.yaml"]).1 (by decide)).1 (by decide),
    ((topology_selection ["prog", "-c", "cluster.yaml"]).1 (by decide)).2.1 (by decide),
    ((topology_selection ["prog", "-s", "sentinel.yaml"]).1 (by decide)).2.2 (by decide)⟩,
   (topology_selection ["prog"]).2 (by decide)⟩

/-- C9: with more than three arguments whose last is "redigo" and a "-c" or
"-s" topology flag, the unchecked type assertion in `createConnectionRedigo`
panics instead of returning an error. -/
theorem redigo_non_node_panics (args : List String)
    (h1 : 3 < args.length)
    (h2 : args.getLastD "" = "redigo")
    (h3 : args.getD 1 "" = "-c" ∨ args.getD 1 "" = "-s") :
    mainGo args = .panicked := by
  have hn3 : ¬ args.length < 3 := by omega
  simp only [List.getD_eq_getElem?_getD] at h3
  simp only [List.getLastD_eq_getLast?] at h2
  rcases h3 with h3 | h3 <;>
    simp [mainGo, loadConfig, hn3, h3, h2, h1, createConnectionRedigo]

/-- Witness for C9: `prog -c cluster.yaml redigo` panics at the type
assertion. -/
theorem redigo_non_node_panics_witness :
    mainGo ["prog", "-c", "cluster.yaml", "redigo"] = MainOutcome.panicked :=
  redigo_non_node_panics _ (by decide) (by decide) (Or.inl (by decide))

/-- C10: with at least three arguments but an unrecognized first argument,
`loadConfig` returns nil without printing the usage message or reporting an
error, so main returns immediately and the program exits silently without
attempting a connection. -/
theorem unknown_flag_silent_exit (args : List String)
    (h1 : 3 ≤ args.length)
    (hn : args.getD 1 "" ≠ "-n")
    (hc : args.getD 1 "" ≠ "-c")
    (hs : args.getD 1 "" ≠ "-s") :
    (loadConfig args).cfg = none ∧
    (loadConfig args).printedUsage = false ∧
    mainGo args = .silentReturn := by
  have hn3 : ¬ args.length < 3 := by omega
  simp only [List.getD_eq_getElem?_getD] at hn hc hs
  simp [loadConfig, mainGo, hn3, hn, hc, hs]

/-- Witness for C10: `prog -x client.yaml` exits silently with no usage
message and no connection attempt. -/
theorem unknown_flag_silent_exit_witness :
    (loadConfig ["prog", "-x", "client.yaml"]).cfg = none ∧
    (loadConfig ["prog", "-x", "client.yaml"]).printedUsage = false ∧
    mainGo ["prog", "-x", "client.yaml"] = MainOutcome.silentReturn :=
  unknown_flag_silent_exit _ (by decide) (by decide) (by decide) (by decide)

end Driver
